import Mathlib

/-!
Verification of the Refactoring-Swarm pipeline against its design spec.

Shallow embedding of the Python sources:
  * `src/agents/judge.py`      — `JudgeAgent.evaluate` and its cosmetic filter,
  * `src/agents/auditor.py`    — `AuditorAgent.audit` and `_detect_forbidden_calls`,
  * `src/agents/fixer.py`      — `FixerAgent.fix_file` / `apply_refactoring_plan`,
  * `src/tools/security.py`    — `ensure_in_sandbox`,
  * `src/tools/file_tools.py`  — `write_file`,
  * `src/orchestrator/refactoring_pipeline.py` — `build_global_plan_from_memory`
    and the `run` iteration loop.

External effects (LLM replies, file reads, OS path resolution, subprocess
output) are passed in as explicit parameters, so every embedded function is a
pure, executable Lean function.
-/

namespace RSwarm

/-! ## String primitives

Python string operations used by the agents, modelled over `String.data`
(`List Char`) so that everything reduces by `decide`/`rfl`.
-/

/-- `startsWithChars pat s` = the char list `pat` is an initial segment of `s`
(Python `str.startswith` on the underlying characters). -/
def startsWithChars : List Char → List Char → Bool
  | [], _ => true
  | _ :: _, [] => false
  | p :: ps, c :: cs => p == c && startsWithChars ps cs

/-- `charsContains pat hay` = `pat` occurs as a contiguous run inside `hay`
(Python `pat in hay`). -/
def charsContains (pat : List Char) : List Char → Bool
  | [] => startsWithChars pat []
  | c :: rest => startsWithChars pat (c :: rest) || charsContains pat rest

/-- Python `pat in s` (substring containment). -/
def strHas (s pat : String) : Bool := charsContains pat.data s.data

/-- Python `s.startswith(pat)`. -/
def strStartsWith (s pat : String) : Bool := startsWithChars pat.data s.data

/-- Python `s.lower()` (ASCII case folding, which is all the agents feed it). -/
def strLower (s : String) : String := ⟨s.data.map Char.toLower⟩

/-- Helper for `splitNl`: accumulates the current line (reversed). -/
def splitNlAux : List Char → List Char → List String
  | [], acc => [⟨acc.reverse⟩]
  | c :: rest, acc =>
      if c = '\n' then ⟨acc.reverse⟩ :: splitNlAux rest []
      else splitNlAux rest (c :: acc)

/-- Python `s.split("\n")`. -/
def splitNl (s : String) : List String := splitNlAux s.data []

/-- Python `"\n".join(lines)`. -/
def joinNl : List String → String
  | [] => ""
  | [l] => l
  | l :: ls => l ++ "\n" ++ joinNl ls

/-- Python `s.strip()` (whitespace trim at both ends). -/
def pyStrip (s : String) : String :=
  ⟨((s.data.dropWhile Char.isWhitespace).reverse.dropWhile Char.isWhitespace).reverse⟩

/-! ## Judge (`src/agents/judge.py`)

`JudgeAgent.evaluate` first obtains a parsed oracle verdict
(`decision`/`reason`/`suggested_fix`, with RETRY-flavoured defaults on any
parse failure); the verdict is a parameter here.  The deterministic override
layer (lines 142–175 of `judge.py`) is embedded verbatim.
-/

/-- The oracle verdict as parsed by `_parse_llm_json` (decision, reason,
suggested fix). -/
structure ParsedVerdict where
  decision : String
  reason : String
  suggested_fix : String
deriving DecidableEq, Repr

/-- The Judge's returned report (the fields the pipeline reads). -/
structure Judgement where
  decision : String
  reason : String
  suggested_fix : String
deriving DecidableEq, Repr

/-- The cosmetic pylint codes ignored by the Judge (`ignore_codes` in
`judge.py`). -/
def ignoreCodes : List String := ["C0114", "C0115", "C0116", "C0301", "C0411", "C0330"]

/-- `_filter_pylint_output`: drop every line containing any cosmetic code. -/
def filterPylintOutput (output : String) : String :=
  joinNl ((splitNl output).filter
    (fun line => !(ignoreCodes.any (fun code => strHas line code))))

/-- `JudgeAgent.evaluate` from the parsed oracle verdict onwards
(`judge.py` lines 142–184). -/
def evaluate (pytest_output pylint_output : String) (parsed : ParsedVerdict) : Judgement :=
  let filtered := filterPylintOutput pylint_output
  let dr : String × String :=
    if parsed.decision ≠ "SUCCESS" then
      if strHas (strLower filtered) "error" || strHas (strLower pytest_output) "fail" then
        ("RETRY",
          "Tests or critical issues remain.\nPytest output:\n" ++ pytest_output
            ++ "\nPylint critical issues:\n" ++ filtered)
      else
        ("SUCCESS", "Tests pass and only cosmetic linting issues remain (ignored).")
    else
      (parsed.decision, parsed.reason)
  let reason := if dr.2 = "" then "No issues detected." else dr.2
  ⟨dr.1, reason, parsed.suggested_fix⟩

/-! ## Auditor (`src/agents/auditor.py`)

`AuditorAgent._detect_forbidden_calls` parses the code with `ast.parse` and
walks every `ast.Call` node.  The parse step is external, so the embedded
code value carries its raw text together with the parse result (`none`
models a `SyntaxError`).  Argument lists are encoded by the mutual
`PyArgs` type (isomorphic to `List PyExpr`) so the walk is structurally
recursive.  `ast.walk` visits nodes breadth-first while `detectCalls`
collects depth-first; the two visits flag exactly the same call nodes, and no
claim here depends on the order of the issue list.
-/

mutual
/-- Python expression nodes relevant to the forbidden-call scan: `ast.Name`,
`ast.Attribute`, `ast.Call` (which carries `lineno`), and a catch-all for
every other expression kind. -/
inductive PyExpr where
  | name (id : String)
  | attribute (value : PyExpr) (attr : String)
  | call (func : PyExpr) (args : PyArgs) (lineno : Nat)
  | const
/-- Argument list of a call node. -/
inductive PyArgs where
  | nil
  | cons (head : PyExpr) (tail : PyArgs)
end

/-- The `forbidden_calls` deny-set of `_detect_forbidden_calls`. -/
def forbiddenCalls : List String := ["eval", "exec", "__import__", "pickle.loads"]

/-- `getattr(node.func, "id", None)`: only an `ast.Name` node has an `id`
field; every other callee yields `None`. -/
def funcId : PyExpr → Option String
  | .name id => some id
  | _ => none

mutual
/-- The walk over all call nodes: flag a call whose callee `id` is in the
deny-set, then continue into the callee and the arguments. -/
def detectCalls : PyExpr → List String
  | .name _ => []
  | .const => []
  | .attribute value _ => detectCalls value
  | .call f args lineno =>
      (match funcId f with
        | some id =>
            if id ∈ forbiddenCalls then
              ["Forbidden call `" ++ id ++ "` at line " ++ toString lineno]
            else []
        | none => []) ++ detectCalls f ++ detectCallsArgs args

/-- The walk over an argument list. -/
def detectCallsArgs : PyArgs → List String
  | .nil => []
  | .cons a rest => detectCalls a ++ detectCallsArgs rest
end

/-- A source file as the Auditor sees it: the raw text (used by the logging
and NUL-byte checks) and the result of `ast.parse` (`none` = `SyntaxError`),
given as the expression nodes reachable from the module tree. -/
structure PyCode where
  text : String
  parsed : Option (List PyExpr)

/-- `AuditorAgent._detect_forbidden_calls`: the AST walk, or the fixed
syntax-error finding when parsing fails. -/
def detect_forbidden_calls (code : PyCode) : List String :=
  match code.parsed with
  | some tree => tree.flatMap detectCalls
  | none => ["Syntax error: unable to parse file"]

/-- The report returned by `AuditorAgent.audit` (the oracle feedback blob is
independent of every other field and is omitted). -/
structure AuditReport where
  file : String
  status : String
  issues : List String
  suggestions : List String
  severity : List String
deriving DecidableEq, Repr

/-- `AuditorAgent.audit` (`auditor.py` lines 94–137): accumulate the three
rule checks in order, then resolve the status severity-aware. -/
def audit (file_path : String) (code : PyCode) (require_logging : Bool) : AuditReport :=
  let forbidden := detect_forbidden_calls code
  let issues1 := forbidden
  let suggestions1 :=
    forbidden.map (fun _ => "Remove or replace forbidden call with a safe alternative.")
  let severity1 := forbidden.map (fun _ => "HIGH")
  let logMissing := require_logging && !(strHas code.text "log_experiment")
  let issues2 := issues1 ++
    (if logMissing then ["No logging detected with log_experiment"] else [])
  let suggestions2 := suggestions1 ++
    (if logMissing then ["Add log_experiment calls to track agent actions"] else [])
  let severity2 := severity1 ++ (if logMissing then ["MEDIUM"] else [])
  let hasNul := strHas code.text "\x00"
  let issues3 := issues2 ++ (if hasNul then ["Null byte detected in file"] else [])
  let suggestions3 := suggestions2 ++
    (if hasNul then ["Clean file encoding and remove binary content"] else [])
  let severity3 := severity2 ++ (if hasNul then ["HIGH"] else [])
  let status :=
    if "HIGH" ∈ severity3 then "FAIL"
    else if issues3 ≠ [] then "WARN"
    else "PASS"
  ⟨file_path, status, issues3, suggestions3, severity3⟩

/-! ## Pipeline iteration loop (`src/orchestrator/refactoring_pipeline.py`)

`RefactoringPipeline.run` (lines 180–249) drives the
audit → plan → fix → test/lint → judge cycle.  Each iteration's observable
outcome (the Fixer batch `overall_status` and the Judge's decision/reason) is
supplied by an environment `env : Nat → IterOutcome` indexed by the
1-based iteration counter; the loop's own control flow is embedded verbatim.
-/

/-- Outcome of one iteration's fix + judge phases, as read by the loop. -/
structure IterOutcome where
  fix_status : String
  decision : String
  reason : String

/-- One record appended to `history` per executed iteration. -/
structure IterationRecord where
  iteration : Nat
  fix_status : String
  judge_decision : String
  judge_reason : String
deriving DecidableEq, Repr

/-- The dictionary returned by `RefactoringPipeline.run`. -/
structure RunResult where
  status : String
  success : Bool
  iterations : Nat
  history : List IterationRecord
deriving DecidableEq, Repr

/-- The `while iteration < self.max_iterations` loop of
`RefactoringPipeline.run`, with `iter` the current value of the iteration
counter and `hist` the history accumulated so far.  On loop exit without a
break, the initial values `final_status = "MAX_ITERATIONS_REACHED"` and
`success = False` are returned. -/
def runAux (env : Nat → IterOutcome) (maxIter : Nat) (iter : Nat)
    (hist : List IterationRecord) : RunResult :=
  if h : iter < maxIter then
    let i := iter + 1
    let out := env i
    let hist2 := hist ++ [⟨i, out.fix_status, out.decision, out.reason⟩]
    if out.decision = "SUCCESS" then
      ⟨"SUCCESS", true, i, hist2⟩
    else
      runAux env maxIter i hist2
  else
    ⟨"MAX_ITERATIONS_REACHED", false, iter, hist⟩
termination_by maxIter - iter
decreasing_by simp_wf; omega

/-- `RefactoringPipeline.run`: the loop started from iteration counter 0 and
an empty history. -/
def run (env : Nat → IterOutcome) (maxIter : Nat) : RunResult :=
  runAux env maxIter 0 []

/-! ## Global plan construction (`src/orchestrator/refactoring_pipeline.py`)

`RefactoringPipeline.build_global_plan_from_memory` (lines 101–175) sends the
accumulated memory (dependency graph + audit reports) to the planner LLM, but
the LLM reply feeds only the plan's free-text summary.  The `files_to_fix`
entry list is built from `self.files` alone: first every file whose name does
not start with `"test_"`, then every file whose name does, each group in input
order, and every entry with empty issue/suggestion/output fields.
-/

/-- One entry of the `files_to_fix` list handed to the Fixer. -/
structure PlanFileEntry where
  path : String
  issues : List String
  suggestions : List String
  latest_pytest_output : String
  latest_pylint_output : String
  llm_feedback : String
deriving DecidableEq, Repr

/-- Helper for `pathName`: split a character list at a separator. -/
def splitChAux (sep : Char) : List Char → List Char → List String
  | [], acc => [⟨acc.reverse⟩]
  | c :: rest, acc =>
      if c = sep then ⟨acc.reverse⟩ :: splitChAux sep rest []
      else splitChAux sep rest (c :: acc)

/-- Python `Path(p).name`: the final path component (paths here are
slash-separated and have no trailing slash). -/
def pathName (p : String) : String := (splitChAux '/' p.data []).getLastD ""

/-- `file_path.name.startswith("test_")`. -/
def isTestFile (p : String) : Bool := strStartsWith (pathName p) "test_"

/-- The `files_to_fix` list of `build_global_plan_from_memory`: all non-test
files first, then all test files, in input order.  The audit reports reach
only the planner-LLM prompt (whose reply feeds the free-text summary), so the
entry list is independent of them; they are kept as an explicit argument to
record that independence. -/
def build_files_to_fix (files : List String) (audit_reports : List AuditReport) :
    List PlanFileEntry :=
  let _ := audit_reports
  ((files.filter (fun f => !(isTestFile f))).map
    (fun f => ⟨f, [], [], "", "", ""⟩)) ++
  ((files.filter isTestFile).map (fun f => ⟨f, [], [], "", "", ""⟩))

/-- `sorted(depgraph.keys(), key=lambda f: len(depgraph[f]))` from
`generate_initial_plan_from_graph` (a stable ascending sort by dependency
count), modelled as stable insertion sort.  The result is stored in the
initial plan's `file_order` field and never consulted again. -/
def insertByCount (count : String → Nat) (f : String) : List String → List String
  | [] => [f]
  | g :: gs =>
      if count g < count f then g :: insertByCount count f gs
      else f :: g :: gs

/-- Stable sort by ascending dependency count (see `insertByCount`). -/
def sortByDepCount (count : String → Nat) : List String → List String
  | [] => []
  | f :: fs => insertByCount count f (sortByDepCount count fs)

/-! ## Fixer (`src/agents/fixer.py`)

`FixerAgent._ask_llm` asks Gemini for replacement text; the raw reply (or the
raised exception) is a parameter.  `fix_file` reads the file (read outcome a
parameter), obtains the reply, strips code fences, and writes the result
back; the write target is inside the sandbox here, so `write_file` succeeds.
-/

/-- The code-fence stripping `_ask_llm` applies to the raw Gemini reply
(`fixer.py` lines 73–82): trim, then drop the first and last line when the
text opens with a fence. -/
def stripFences (raw : String) : String :=
  let fixed_code := pyStrip raw
  if strStartsWith fixed_code "```python" then
    joinNl (((splitNl fixed_code).drop 1).dropLast)
  else if strStartsWith fixed_code "```" then
    joinNl (((splitNl fixed_code).drop 1).dropLast)
  else fixed_code

/-- Observable outcome of `FixerAgent.fix_file`: the report's status and
`changes_applied` flag, and the content persisted by `write_file` (`none`
when nothing was written). -/
structure FixOutcome where
  status : String
  changes_applied : Bool
  written : Option String
deriving DecidableEq, Repr

/-- `FixerAgent.fix_file` (lines 90–173): a failed read returns a FAIL report
without writing; a raised LLM call returns a FAIL report without writing;
otherwise the fence-stripped reply is written back unconditionally and the
report is SUCCESS with `changes_applied = True`. -/
def fix_file (readResult llmRaw : Except String String) : FixOutcome :=
  match readResult with
  | .error _ => ⟨"FAIL", false, none⟩
  | .ok _current =>
      match llmRaw with
      | .error _ => ⟨"FAIL", false, none⟩
      | .ok raw => ⟨"SUCCESS", true, some (stripFences raw)⟩

/-- The `for file_info in files_to_fix` loop of
`FixerAgent.apply_refactoring_plan` (lines 195–215): skip entries with a
falsy path (a missing `path` key is modelled as the empty string), call
`fix_file` on the rest in list order, and count successes and failures.
Returns `(successful, failed, file_results)`. -/
def applyLoop (fixOf : String → FixOutcome) : List PlanFileEntry → Nat × Nat × List FixOutcome
  | [] => (0, 0, [])
  | fi :: rest =>
      if fi.path = "" then applyLoop fixOf rest
      else
        let result := fixOf fi.path
        let r := applyLoop fixOf rest
        (r.1 + (if result.status = "SUCCESS" then 1 else 0),
         r.2.1 + (if result.status = "SUCCESS" then 0 else 1),
         result :: r.2.2)

/-- The batch summary returned by `apply_refactoring_plan`. -/
structure BatchSummary where
  total_files : Nat
  successful : Nat
  failed : Nat
  file_results : List FixOutcome
  overall_status : String
deriving DecidableEq, Repr

/-- `FixerAgent.apply_refactoring_plan` (lines 178–228).  The per-path fix
outcome (read + LLM + write for that file) is supplied by `fixOf`. -/
def apply_refactoring_plan (fixOf : String → FixOutcome)
    (files_to_fix : List PlanFileEntry) : BatchSummary :=
  let r := applyLoop fixOf files_to_fix
  ⟨files_to_fix.length, r.1, r.2.1, r.2.2,
    if r.2.1 = 0 then "COMPLETE" else "PARTIAL"⟩

/-- The sequence of paths on which `apply_refactoring_plan` invokes
`fix_file`: the entry list in order, falsy paths skipped. -/
def fixer_processing_order (entries : List PlanFileEntry) : List String :=
  (entries.filter (fun e => !(e.path == ""))).map (fun e => e.path)

/-! ## Sandbox containment (`src/tools/security.py`, `src/tools/file_tools.py`)

`ensure_in_sandbox` resolves both the sandbox root and the target path with
`Path.resolve()` (which absolutizes and follows symlinks) and accepts the
target iff `target.relative_to(sandbox_root)` succeeds, i.e. iff the resolved
sandbox root's components are an initial segment of the resolved target's
components.  OS path resolution is external, so it is a parameter
`resolve : String → List String` mapping a path string (relative, absolute,
or through symlinks) to its resolved component list.
-/

/-- A fully resolved absolute path, as its component list. -/
abbrev ResolvedPath := List String

/-- `ensure_in_sandbox` (`security.py` lines 18–37). -/
def ensure_in_sandbox (resolve : String → ResolvedPath) (sandbox_dir path : String) :
    Except String Unit :=
  let sandbox_root := resolve sandbox_dir
  let target_path := resolve path
  if sandbox_root.isPrefixOf target_path then .ok ()
  else
    .error ("SECURITY VIOLATION: Attempt to access path outside sandbox:\n"
      ++ String.intercalate "/" target_path)

/-- What `write_file` did to the file system: whether a `.bak` backup was
taken (it is iff the file already existed) and the content written. -/
structure WriteEffect where
  backup_taken : Bool
  written : String
deriving DecidableEq, Repr

/-- `write_file` (`file_tools.py` lines 45–57): the sandbox check runs before
the parent-directory creation, the backup and the write, so a failed check
produces no effect at all. -/
def write_file (resolve : String → ResolvedPath) (sandbox_dir path : String)
    (content : String) (file_already_exists : Bool) : Except String WriteEffect :=
  match ensure_in_sandbox resolve sandbox_dir path with
  | .error e => .error e
  | .ok _ => .ok ⟨file_already_exists, content⟩

/-! ## Theorems -/

/-- Helper: the loop returns unchanged state when the counter has reached the
bound. -/
theorem runAux_stop (env : Nat → IterOutcome) (maxIter iter : Nat)
    (hist : List IterationRecord) (h : ¬ iter < maxIter) :
    runAux env maxIter iter hist = ⟨"MAX_ITERATIONS_REACHED", false, iter, hist⟩ := by
  rw [runAux]
  simp [h]

/-- Helper: one unfolding of the loop body below the bound. -/
theorem runAux_step (env : Nat → IterOutcome) (maxIter iter : Nat)
    (hist : List IterationRecord) (h : iter < maxIter) :
    runAux env maxIter iter hist =
      (if (env (iter + 1)).decision = "SUCCESS" then
        ⟨"SUCCESS", true, iter + 1,
          hist ++ [⟨iter + 1, (env (iter + 1)).fix_status, (env (iter + 1)).decision,
            (env (iter + 1)).reason⟩]⟩
      else
        runAux env maxIter (iter + 1)
          (hist ++ [⟨iter + 1, (env (iter + 1)).fix_status, (env (iter + 1)).decision,
            (env (iter + 1)).reason⟩])) := by
  rw [runAux]
  simp [h]

/-- Helper: the final iteration counter stays between its start value and the
bound. -/
theorem runAux_iterations_bounds (env : Nat → IterOutcome) (maxIter iter : Nat)
    (hist : List IterationRecord) (h : iter ≤ maxIter) :
    iter ≤ (runAux env maxIter iter hist).iterations ∧
    (runAux env maxIter iter hist).iterations ≤ maxIter := by
  by_cases hlt : iter < maxIter
  · rw [runAux_step env maxIter iter hist hlt]
    split
    · simp
      omega
    · have ih := runAux_iterations_bounds env maxIter (iter + 1)
        (hist ++ [⟨iter + 1, (env (iter + 1)).fix_status, (env (iter + 1)).decision,
          (env (iter + 1)).reason⟩]) (by omega)
      omega
  · rw [runAux_stop env maxIter iter hist hlt]
    simp
    omega
termination_by maxIter - iter
decreasing_by simp_wf; omega

/-- Helper: the loop appends exactly one history record per executed
iteration. -/
theorem runAux_history_len (env : Nat → IterOutcome) (maxIter iter : Nat)
    (hist : List IterationRecord) :
    (runAux env maxIter iter hist).history.length + iter =
      hist.length + (runAux env maxIter iter hist).iterations := by
  by_cases hlt : iter < maxIter
  · rw [runAux_step env maxIter iter hist hlt]
    split
    · simp
      omega
    · have ih := runAux_history_len env maxIter (iter + 1)
        (hist ++ [⟨iter + 1, (env (iter + 1)).fix_status, (env (iter + 1)).decision,
          (env (iter + 1)).reason⟩])
      simp at ih ⊢
      omega
  · rw [runAux_stop env maxIter iter hist hlt]
termination_by maxIter - iter
decreasing_by simp_wf; omega

/-- Helper: if no remaining iteration's decision is SUCCESS, the loop exhausts
the bound and reports MAX_ITERATIONS_REACHED. -/
theorem runAux_no_success (env : Nat → IterOutcome) (maxIter iter : Nat)
    (hist : List IterationRecord) (h : iter ≤ maxIter)
    (hns : ∀ i, iter < i → i ≤ maxIter → (env i).decision ≠ "SUCCESS") :
    (runAux env maxIter iter hist).status = "MAX_ITERATIONS_REACHED" ∧
    (runAux env maxIter iter hist).success = false ∧
    (runAux env maxIter iter hist).iterations = maxIter := by
  by_cases hlt : iter < maxIter
  · rw [runAux_step env maxIter iter hist hlt]
    rw [if_neg (hns (iter + 1) (by omega) (by omega))]
    exact runAux_no_success env maxIter (iter + 1) _ (by omega)
      (fun i h1 h2 => hns i (by omega) h2)
  · have heq : iter = maxIter := by omega
    rw [runAux_stop env maxIter iter hist hlt]
    simp [heq]
termination_by maxIter - iter
decreasing_by simp_wf; omega

/-- Helper: the loop breaks out at the first iteration whose decision is
SUCCESS. -/
theorem runAux_first_success (env : Nat → IterOutcome) (maxIter iter : Nat)
    (hist : List IterationRecord) (k : Nat)
    (hik : iter < k) (hkm : k ≤ maxIter)
    (hk : (env k).decision = "SUCCESS")
    (hmin : ∀ j, iter < j → j < k → (env j).decision ≠ "SUCCESS") :
    (runAux env maxIter iter hist).status = "SUCCESS" ∧
    (runAux env maxIter iter hist).success = true ∧
    (runAux env maxIter iter hist).iterations = k := by
  have hlt : iter < maxIter := lt_of_lt_of_le hik hkm
  rw [runAux_step env maxIter iter hist hlt]
  by_cases hke : k = iter + 1
  · subst hke
    rw [if_pos hk]
    exact ⟨rfl, rfl, rfl⟩
  · rw [if_neg (hmin (iter + 1) (by omega) (by omega))]
    exact runAux_first_success env maxIter (iter + 1) _ k (by omega) hkm hk
      (fun j h1 h2 => hmin j (by omega) h2)
termination_by maxIter - iter
decreasing_by simp_wf; omega

/-- Claim C2: `RefactoringPipeline.run` performs at most `max_iterations`
iterations and appends exactly one history record per executed iteration;
if no iteration's decision is SUCCESS it returns MAX_ITERATIONS_REACHED with
`success = false` after exactly `max_iterations` iterations, and the first
iteration whose decision is SUCCESS terminates the loop immediately with
status SUCCESS and `success = true`. -/
theorem pipeline_run_spec (env : Nat → IterOutcome) (m : Nat) (hm : 1 ≤ m) :
    (run env m).iterations ≤ m ∧
    (run env m).history.length = (run env m).iterations ∧
    ((∀ i, 1 ≤ i → i ≤ m → (env i).decision ≠ "SUCCESS") →
      (run env m).status = "MAX_ITERATIONS_REACHED" ∧
      (run env m).success = false ∧
      (run env m).iterations = m) ∧
    (∀ k, 1 ≤ k → k ≤ m → (env k).decision = "SUCCESS" →
      (∀ j, 1 ≤ j → j < k → (env j).decision ≠ "SUCCESS") →
      (run env m).status = "SUCCESS" ∧
      (run env m).success = true ∧
      (run env m).iterations = k) := by
  refine ⟨?_, ?_, ?_, ?_⟩
  · exact (runAux_iterations_bounds env m 0 [] (by omega)).2
  · have := runAux_history_len env m 0 []
    simpa [run] using this
  · intro hns
    exact runAux_no_success env m 0 [] (by omega)
      (fun i h1 h2 => hns i (by omega) h2)
  · intro k h1 h2 hk hmin
    exact runAux_first_success env m 0 [] k (by omega) h2 hk
      (fun j hj1 hj2 => hmin j (by omega) hj2)

/-- Witness for `pipeline_run_spec`: one iteration, never-converging target. -/
theorem pipeline_run_spec_witness :
    (1 ≤ 1) ∧
    ((run (fun _ => ⟨"PARTIAL", "RETRY", "issues remain"⟩) 1).iterations ≤ 1 ∧
     (run (fun _ => ⟨"PARTIAL", "RETRY", "issues remain"⟩) 1).history.length =
       (run (fun _ => ⟨"PARTIAL", "RETRY", "issues remain"⟩) 1).iterations ∧
     ((∀ i, 1 ≤ i → i ≤ 1 →
        ((fun (_ : Nat) => (⟨"PARTIAL", "RETRY", "issues remain"⟩ : IterOutcome)) i).decision
          ≠ "SUCCESS") →
       (run (fun _ => ⟨"PARTIAL", "RETRY", "issues remain"⟩) 1).status =
         "MAX_ITERATIONS_REACHED" ∧
       (run (fun _ => ⟨"PARTIAL", "RETRY", "issues remain"⟩) 1).success = false ∧
       (run (fun _ => ⟨"PARTIAL", "RETRY", "issues remain"⟩) 1).iterations = 1) ∧
     (∀ k, 1 ≤ k → k ≤ 1 →
       ((fun (_ : Nat) => (⟨"PARTIAL", "RETRY", "issues remain"⟩ : IterOutcome)) k).decision
         = "SUCCESS" →
       (∀ j, 1 ≤ j → j < k →
         ((fun (_ : Nat) => (⟨"PARTIAL", "RETRY", "issues remain"⟩ : IterOutcome)) j).decision
           ≠ "SUCCESS") →
       (run (fun _ => ⟨"PARTIAL", "RETRY", "issues remain"⟩) 1).status = "SUCCESS" ∧
       (run (fun _ => ⟨"PARTIAL", "RETRY", "issues remain"⟩) 1).success = true ∧
       (run (fun _ => ⟨"PARTIAL", "RETRY", "issues remain"⟩) 1).iterations = k)) :=
  ⟨Nat.le_refl 1,
   pipeline_run_spec (fun _ => ⟨"PARTIAL", "RETRY", "issues remain"⟩) 1 (Nat.le_refl 1)⟩

/-- Helper: when every pylint line carries a cosmetic code, the Judge's
cosmetic filter erases the whole text. -/
theorem filterPylint_all_cosmetic (pylint : String)
    (hcos : ∀ line ∈ splitNl pylint,
      (ignoreCodes.any (fun code => strHas line code)) = true) :
    filterPylintOutput pylint = "" := by
  unfold filterPylintOutput
  have hnil : (splitNl pylint).filter
      (fun line => !(ignoreCodes.any (fun code => strHas line code))) = [] := by
    rw [List.filter_eq_nil_iff]
    intro a ha
    simp [hcos a ha]
  rw [hnil]
  rfl

/-- Claim C1: when the parsed oracle decision is not SUCCESS, `evaluate`
returns RETRY iff the cosmetic-filtered pylint text contains "error"
(case-insensitively) or the raw pytest output contains "fail"
(case-insensitively); otherwise it returns SUCCESS with the fixed cosmetic
reason string. -/
theorem judge_override_retry_iff (pytest pylint : String) (parsed : ParsedVerdict)
    (h : parsed.decision ≠ "SUCCESS") :
    ((evaluate pytest pylint parsed).decision = "RETRY" ↔
        (strHas (strLower (filterPylintOutput pylint)) "error" = true ∨
         strHas (strLower pytest) "fail" = true)) ∧
    ((strHas (strLower (filterPylintOutput pylint)) "error" = false ∧
      strHas (strLower pytest) "fail" = false) →
        (evaluate pytest pylint parsed).decision = "SUCCESS" ∧
        (evaluate pytest pylint parsed).reason =
          "Tests pass and only cosmetic linting issues remain (ignored).") := by
  cases he : strHas (strLower (filterPylintOutput pylint)) "error" <;>
    cases hf : strHas (strLower pytest) "fail" <;>
      simp [evaluate, h, he, hf]

/-- Witness for `judge_override_retry_iff` at a concrete input. -/
theorem judge_override_retry_iff_witness :
    ((⟨"RETRY", "", ""⟩ : ParsedVerdict).decision ≠ "SUCCESS") ∧
    (((evaluate "2 passed" "m.py:1:0: E0001: error found" ⟨"RETRY", "", ""⟩).decision = "RETRY" ↔
        (strHas (strLower (filterPylintOutput "m.py:1:0: E0001: error found")) "error" = true ∨
         strHas (strLower "2 passed") "fail" = true)) ∧
     ((strHas (strLower (filterPylintOutput "m.py:1:0: E0001: error found")) "error" = false ∧
       strHas (strLower "2 passed") "fail" = false) →
        (evaluate "2 passed" "m.py:1:0: E0001: error found" ⟨"RETRY", "", ""⟩).decision = "SUCCESS" ∧
        (evaluate "2 passed" "m.py:1:0: E0001: error found" ⟨"RETRY", "", ""⟩).reason =
          "Tests pass and only cosmetic linting issues remain (ignored).")) :=
  ⟨by decide,
   judge_override_retry_iff "2 passed" "m.py:1:0: E0001: error found"
     ⟨"RETRY", "", ""⟩ (by decide)⟩

/-- Claim C4, counterexample: pytest text "1 passed, 0 failed" contains the
substring "fail", so with an oracle RETRY verdict and purely cosmetic lint the
Judge still answers RETRY, not SUCCESS. -/
theorem judge_zero_failed_counterexample :
    (evaluate "1 passed, 0 failed"
        "sample.py:1:0: C0114: Missing module docstring (missing-module-docstring)"
        ⟨"RETRY", "", ""⟩).decision = "RETRY" ∧
    ¬ (evaluate "1 passed, 0 failed"
        "sample.py:1:0: C0114: Missing module docstring (missing-module-docstring)"
        ⟨"RETRY", "", ""⟩).decision = "SUCCESS" := by decide

/-- Claim C4 (amended): if the pytest output does not contain "fail"
(case-insensitively) and every pylint line carries a cosmetic code, `evaluate`
returns decision SUCCESS for every oracle verdict, RETRY included. -/
theorem judge_cosmetic_only_success (pytest pylint : String) (parsed : ParsedVerdict)
    (hfail : strHas (strLower pytest) "fail" = false)
    (hcos : ∀ line ∈ splitNl pylint,
      (ignoreCodes.any (fun code => strHas line code)) = true) :
    (evaluate pytest pylint parsed).decision = "SUCCESS" := by
  by_cases hd : parsed.decision = "SUCCESS"
  · simp [evaluate, hd]
  · have hfiltered := filterPylint_all_cosmetic pylint hcos
    have hzero : strHas (strLower "") "error" = false := rfl
    simp [evaluate, hd, hfiltered, hzero, hfail]

/-- Witness for `judge_cosmetic_only_success` at a concrete input. -/
theorem judge_cosmetic_only_success_witness :
    (strHas (strLower "1 passed") "fail" = false) ∧
    (∀ line ∈ splitNl "a.py:1:0: C0114: Missing module docstring",
      (ignoreCodes.any (fun code => strHas line code)) = true) ∧
    (evaluate "1 passed" "a.py:1:0: C0114: Missing module docstring"
        ⟨"RETRY", "", ""⟩).decision = "SUCCESS" :=
  ⟨by decide, by decide,
   judge_cosmetic_only_success "1 passed" "a.py:1:0: C0114: Missing module docstring"
     ⟨"RETRY", "", ""⟩ (by decide) (by decide)⟩

/-- Claim C5: the deny-set names `pickle.loads`, yet a `pickle.loads(...)`
call is never flagged — the callee of an attribute call has no `id` field, so
`getattr(node.func, "id", None)` yields `None` and the audit passes.  A plain
`eval(...)` call, by contrast, is flagged HIGH and fails the audit. -/
theorem auditor_pickle_loads_not_flagged :
    "pickle.loads" ∈ forbiddenCalls ∧
    (audit "victim.py"
      ⟨"import pickle\nresult = pickle.loads(payload)\n",
        some [.call (.attribute (.name "pickle") "loads") (.cons (.name "payload") .nil) 2]⟩
      false).status = "PASS" ∧
    (audit "victim.py"
      ⟨"import pickle\nresult = pickle.loads(payload)\n",
        some [.call (.attribute (.name "pickle") "loads") (.cons (.name "payload") .nil) 2]⟩
      false).issues = [] ∧
    (audit "evil.py"
      ⟨"eval(payload)\n", some [.call (.name "eval") (.cons (.name "payload") .nil) 1]⟩
      false).status = "FAIL" := by decide

/-- Claim C6: the audit status is FAIL iff a HIGH-severity finding exists,
WARN iff findings exist but none is HIGH, PASS iff there is no finding; and
code with no forbidden-call findings, no NUL byte, and the logging check
satisfied audits as PASS. -/
theorem auditor_status_resolution (fp : String) (code : PyCode) (rl : Bool) :
    ((audit fp code rl).status = "FAIL" ↔ "HIGH" ∈ (audit fp code rl).severity) ∧
    ((audit fp code rl).status = "WARN" ↔
      ((audit fp code rl).issues ≠ [] ∧ "HIGH" ∉ (audit fp code rl).severity)) ∧
    ((audit fp code rl).status = "PASS" ↔ (audit fp code rl).issues = []) ∧
    (detect_forbidden_calls code = [] → strHas code.text "\x00" = false →
      (rl = false ∨ strHas code.text "log_experiment" = true) →
      (audit fp code rl).status = "PASS") := by
  cases hF : detect_forbidden_calls code with
  | cons a as => simp [audit, hF]
  | nil =>
      cases hL : (rl && !(strHas code.text "log_experiment")) <;>
        cases hN : strHas code.text "\x00"
      · simp [audit, hF, hL, hN]
      · simp [audit, hF, hL, hN]
      · simp [audit, hF, hL, hN]
        simp at hL
        exact hL
      · simp [audit, hF, hL, hN]

/-- Witness for `auditor_status_resolution` at a concrete clean input. -/
theorem auditor_status_resolution_witness :
    (((audit "clean.py" ⟨"print(1)\n", some [.call (.name "print") (.cons .const .nil) 1]⟩
        false).status = "FAIL" ↔
      "HIGH" ∈ (audit "clean.py"
        ⟨"print(1)\n", some [.call (.name "print") (.cons .const .nil) 1]⟩
        false).severity) ∧
     ((audit "clean.py" ⟨"print(1)\n", some [.call (.name "print") (.cons .const .nil) 1]⟩
        false).status = "WARN" ↔
      ((audit "clean.py" ⟨"print(1)\n", some [.call (.name "print") (.cons .const .nil) 1]⟩
        false).issues ≠ [] ∧
       "HIGH" ∉ (audit "clean.py"
        ⟨"print(1)\n", some [.call (.name "print") (.cons .const .nil) 1]⟩
        false).severity)) ∧
     ((audit "clean.py" ⟨"print(1)\n", some [.call (.name "print") (.cons .const .nil) 1]⟩
        false).status = "PASS" ↔
      (audit "clean.py" ⟨"print(1)\n", some [.call (.name "print") (.cons .const .nil) 1]⟩
        false).issues = []) ∧
     (detect_forbidden_calls
        ⟨"print(1)\n", some [.call (.name "print") (.cons .const .nil) 1]⟩ = [] →
      strHas "print(1)\n" "\x00" = false →
      (false = false ∨ strHas "print(1)\n" "log_experiment" = true) →
      (audit "clean.py" ⟨"print(1)\n", some [.call (.name "print") (.cons .const .nil) 1]⟩
        false).status = "PASS")) :=
  auditor_status_resolution "clean.py"
    ⟨"print(1)\n", some [.call (.name "print") (.cons .const .nil) 1]⟩ false

/-- Claim C7, counterexample: a 2-character oracle reply replaces a
non-trivial 32-character original — `fix_file` has no near-empty guard and
does not fall back to the original content. -/
theorem fixer_near_empty_counterexample :
    (fix_file (.ok "def add(a, b):\n    return a + b\n") (.ok "ok")).written = some "ok" ∧
    (fix_file (.ok "def add(a, b):\n    return a + b\n") (.ok "ok")).written
      ≠ some "def add(a, b):\n    return a + b\n" ∧
    (pyStrip "ok").length < 20 ∧
    20 ≤ "def add(a, b):\n    return a + b\n".length := by decide

/-- Claim C7 (amended): on a successful read and oracle call, `fix_file`
persists the fence-stripped oracle reply unconditionally — reporting SUCCESS
with `changes_applied = True` — so whenever that reply differs from the
original (in particular when it is near-empty), the original content is not
what ends up in the file. -/
theorem fixer_writes_reply_unconditionally (orig raw : String) :
    (fix_file (.ok orig) (.ok raw)).status = "SUCCESS" ∧
    (fix_file (.ok orig) (.ok raw)).changes_applied = true ∧
    (fix_file (.ok orig) (.ok raw)).written = some (stripFences raw) ∧
    (stripFences raw ≠ orig →
      (fix_file (.ok orig) (.ok raw)).written ≠ some orig) := by
  refine ⟨rfl, rfl, rfl, ?_⟩
  intro h hc
  simp [fix_file] at hc
  exact h hc

/-- Witness for `fixer_writes_reply_unconditionally`: the near-empty reply
"ok" over a non-trivial original. -/
theorem fixer_writes_reply_unconditionally_witness :
    stripFences "ok" ≠ "def add(a, b):\n    return a + b\n" ∧
    (fix_file (.ok "def add(a, b):\n    return a + b\n") (.ok "ok")).written
      ≠ some "def add(a, b):\n    return a + b\n" :=
  ⟨by decide,
   (fixer_writes_reply_unconditionally "def add(a, b):\n    return a + b\n" "ok").2.2.2
     (by decide)⟩

/-- Claim C8, counterexample: with one entry that fails, the batch summary's
`overall_status` is "PARTIAL" — not the "FAILURE" the claim requires for
zero successes, and outside the claim's allowed set. -/
theorem fixer_overall_status_counterexample :
    (apply_refactoring_plan (fun _ => ⟨"FAIL", false, none⟩)
      [⟨"a.py", [], [], "", "", ""⟩]).overall_status = "PARTIAL" ∧
    (apply_refactoring_plan (fun _ => ⟨"FAIL", false, none⟩)
      [⟨"a.py", [], [], "", "", ""⟩]).successful = 0 ∧
    (apply_refactoring_plan (fun _ => ⟨"FAIL", false, none⟩)
      [⟨"a.py", [], [], "", "", ""⟩]).failed = 1 ∧
    ("PARTIAL" : String) ≠ "FAILURE" ∧
    ("PARTIAL" : String) ≠ "PARTIAL_SUCCESS" := by decide

/-- Helper: the fix loop's success and failure counters sum to the number of
processed (non-falsy-path) entries. -/
theorem applyLoop_counts (fixOf : String → FixOutcome) (entries : List PlanFileEntry) :
    (applyLoop fixOf entries).1 + (applyLoop fixOf entries).2.1
      = (entries.filter (fun e => !(e.path == ""))).length := by
  induction entries with
  | nil => rfl
  | cons fi rest ih =>
      by_cases hp : fi.path = ""
      · simp [applyLoop, hp, ih]
      · by_cases hs : (fixOf fi.path).status = "SUCCESS" <;>
          simp [applyLoop, hp, hs] <;> omega

/-- Claim C8 (amended): `overall_status` is "COMPLETE" iff no processed entry
failed and is "PARTIAL" otherwise — it is always one of COMPLETE/PARTIAL
(never PARTIAL_SUCCESS or FAILURE) — and `successful + failed` equals the
number of processed entries. -/
theorem fixer_overall_status_spec (fixOf : String → FixOutcome)
    (entries : List PlanFileEntry) :
    ((apply_refactoring_plan fixOf entries).overall_status = "COMPLETE" ↔
      (apply_refactoring_plan fixOf entries).failed = 0) ∧
    ((apply_refactoring_plan fixOf entries).overall_status = "COMPLETE" ∨
      (apply_refactoring_plan fixOf entries).overall_status = "PARTIAL") ∧
    ((apply_refactoring_plan fixOf entries).successful +
        (apply_refactoring_plan fixOf entries).failed =
      (entries.filter (fun e => !(e.path == ""))).length) := by
  refine ⟨?_, ?_, ?_⟩
  · by_cases h : (applyLoop fixOf entries).2.1 = 0 <;>
      simp [apply_refactoring_plan, h]
  · by_cases h : (applyLoop fixOf entries).2.1 = 0 <;>
      simp [apply_refactoring_plan, h]
  · simpa [apply_refactoring_plan] using applyLoop_counts fixOf entries

/-- Claim C9: `write_file` fails with the security-violation error — before
producing any file-system effect — exactly when the resolved sandbox root is
not an initial segment of the resolved target path, and otherwise performs
the backup-and-write; `resolve` ranges over arbitrary OS path resolution, so
this covers relative paths, absolute paths and symlink indirection alike. -/
theorem write_file_sandbox_guard (resolve : String → ResolvedPath)
    (sandbox_dir path content : String) (ex : Bool) :
    ((resolve sandbox_dir).isPrefixOf (resolve path) = false →
      write_file resolve sandbox_dir path content ex =
        .error ("SECURITY VIOLATION: Attempt to access path outside sandbox:\n"
          ++ String.intercalate "/" (resolve path))) ∧
    ((resolve sandbox_dir).isPrefixOf (resolve path) = true →
      write_file resolve sandbox_dir path content ex = .ok ⟨ex, content⟩) := by
  cases h : (resolve sandbox_dir).isPrefixOf (resolve path) <;>
    simp [write_file, ensure_in_sandbox, h]

/-- Witness for `write_file_sandbox_guard`: a symlink-style resolution under
which one path escapes the sandbox (rejected, nothing written) and another
stays inside (accepted and written). -/
theorem write_file_sandbox_guard_witness :
    (write_file
      (fun s =>
        if s = "sandbox" then ["home", "proj", "sandbox"]
        else if s = "inside.py" then ["home", "proj", "sandbox", "inside.py"]
        else ["etc", "passwd"])
      "sandbox" "link_out.py" "data" false =
      .error ("SECURITY VIOLATION: Attempt to access path outside sandbox:\netc/passwd")) ∧
    (write_file
      (fun s =>
        if s = "sandbox" then ["home", "proj", "sandbox"]
        else if s = "inside.py" then ["home", "proj", "sandbox", "inside.py"]
        else ["etc", "passwd"])
      "sandbox" "inside.py" "data" true = .ok ⟨true, "data"⟩) :=
  ⟨(write_file_sandbox_guard
      (fun s =>
        if s = "sandbox" then ["home", "proj", "sandbox"]
        else if s = "inside.py" then ["home", "proj", "sandbox", "inside.py"]
        else ["etc", "passwd"])
      "sandbox" "link_out.py" "data" false).1 (by decide),
   (write_file_sandbox_guard
      (fun s =>
        if s = "sandbox" then ["home", "proj", "sandbox"]
        else if s = "inside.py" then ["home", "proj", "sandbox", "inside.py"]
        else ["etc", "passwd"])
      "sandbox" "inside.py" "data" true).2 (by decide)⟩

/-- Claim C3, counterexample: a file whose audit report is PASS still appears
in the plan's `files_to_fix` list, which the claim forbids. -/
theorem plan_includes_pass_file_counterexample :
    ((build_files_to_fix ["clean.py"] [⟨"clean.py", "PASS", [], [], []⟩]).map
      (fun e => e.path)) = ["clean.py"] ∧
    (⟨"clean.py", "PASS", [], [], []⟩ : AuditReport).status = "PASS" := by decide

/-- Claim C3 (amended): the plan's per-file entry list contains exactly the
input files — membership is independent of the audit reports, so files with
status PASS appear too. -/
theorem plan_files_membership (files : List String) (reports : List AuditReport)
    (f : String) :
    (f ∈ (build_files_to_fix files reports).map (fun e => e.path) ↔ f ∈ files) := by
  simp [build_files_to_fix, List.mem_filter]
  by_cases ht : isTestFile f <;> simp [ht]

/-- Helper: the fix loop processes entries with all-nonempty paths without
skipping any. -/
theorem processing_order_map (l : List String) (h : ∀ f ∈ l, ¬ f = "") :
    fixer_processing_order
      (l.map (fun f => (⟨f, [], [], "", "", ""⟩ : PlanFileEntry))) = l := by
  induction l with
  | nil => rfl
  | cons a as ih =>
      have ha : ¬ a = "" := h a (by simp)
      have iha := ih (fun f hf => h f (by simp [hf]))
      simp [fixer_processing_order] at iha ⊢
      simp [ha, iha]

/-- Helper: processing order distributes over plan concatenation. -/
theorem processing_order_app (l1 l2 : List PlanFileEntry) :
    fixer_processing_order (l1 ++ l2) =
      fixer_processing_order l1 ++ fixer_processing_order l2 := by
  simp [fixer_processing_order]

/-- Helper: the fix loop's result list is `fix_file` applied to the
processing order. -/
theorem applyLoop_results (fixOf : String → FixOutcome) (entries : List PlanFileEntry) :
    (applyLoop fixOf entries).2.2 = (fixer_processing_order entries).map fixOf := by
  induction entries with
  | nil => rfl
  | cons fi rest ih =>
      by_cases hp : fi.path = "" <;>
        simp [applyLoop, fixer_processing_order, hp] at ih ⊢ <;>
          simp [ih]

/-- Claim C10: in every iteration the Fixer processes exactly the pipeline's
input files, non-test files first and then test files, each group in input
order; the dependency-count-sorted order from the dependency-graph phase is
not what determines the processing order (the two differ already on a
two-file example where the second file has fewer dependencies). -/
theorem fixer_processes_partition_order (files : List String)
    (reports : List AuditReport) (fixOf : String → FixOutcome)
    (h : ∀ f ∈ files, ¬ f = "") :
    fixer_processing_order (build_files_to_fix files reports)
      = files.filter (fun f => !(isTestFile f)) ++ files.filter isTestFile ∧
    (applyLoop fixOf (build_files_to_fix files reports)).2.2
      = ((files.filter (fun f => !(isTestFile f))) ++ files.filter isTestFile).map fixOf ∧
    sortByDepCount (fun f => if f = "b.py" then 0 else 1) ["a.py", "b.py"]
      ≠ fixer_processing_order (build_files_to_fix ["a.py", "b.py"] []) := by
  have h1 : fixer_processing_order (build_files_to_fix files reports)
      = files.filter (fun f => !(isTestFile f)) ++ files.filter isTestFile := by
    unfold build_files_to_fix
    rw [processing_order_app,
      processing_order_map _ (fun f hf => h f (List.mem_filter.mp hf).1),
      processing_order_map _ (fun f hf => h f (List.mem_filter.mp hf).1)]
  refine ⟨h1, ?_, by decide⟩
  rw [applyLoop_results, h1]

/-- Witness for `fixer_processes_partition_order` on a concrete three-file
project with one test file in the middle. -/
theorem fixer_processes_partition_order_witness :
    (∀ f ∈ ["b.py", "test_a.py", "a.py"], ¬ f = "") ∧
    (fixer_processing_order
        (build_files_to_fix ["b.py", "test_a.py", "a.py"] [])
      = (["b.py", "test_a.py", "a.py"].filter (fun f => !(isTestFile f)))
          ++ ["b.py", "test_a.py", "a.py"].filter isTestFile ∧
     (applyLoop (fun p => ⟨"SUCCESS", true, some p⟩)
        (build_files_to_fix ["b.py", "test_a.py", "a.py"] [])).2.2
      = ((["b.py", "test_a.py", "a.py"].filter (fun f => !(isTestFile f)))
          ++ ["b.py", "test_a.py", "a.py"].filter isTestFile).map
            (fun p => ⟨"SUCCESS", true, some p⟩) ∧
     sortByDepCount (fun f => if f = "b.py" then 0 else 1) ["a.py", "b.py"]
      ≠ fixer_processing_order (build_files_to_fix ["a.py", "b.py"] [])) :=
  ⟨by decide,
   fixer_processes_partition_order ["b.py", "test_a.py", "a.py"] []
     (fun p => ⟨"SUCCESS", true, some p⟩) (by decide)⟩

end RSwarm
